import Mathlib

/-!
Verification of the A-Frame `navmesh` ground-follower component.

A shallow embedding of the `navmesh` component (the Ground Follower of
the specification): the per-frame `tick` ground-resolution algorithm with its
8-entry scan pattern, obstacle-exclusion filter, gravity/velocity integrator,
position commit and rollback, together with the `update` (re)configuration hook.

Embedding conventions:

* Scalars are exact rationals (`ℚ`) in place of JS floats; `v.distanceTo(w) ≤ d`
  is embedded as `Vec3.distSq v w ≤ d * d` (the squared form of the same test).
* Scene elements and their `object3D` handles are identified and modelled as
  naturals; `document.querySelectorAll` is an abstract `String → List ℕ`.
* The host primitives the core delegates to are parameters of `tick`:
  - `cast objs origin far` models
    `raycaster.set(origin, down); raycaster.far = far; raycaster.intersectObjects(objs, true, results)`,
    returning the intersections ordered nearest-first exactly as THREE does
    (`far = none` encodes `Infinity`);
  - `rotY angle v` models `v.applyAxisAngle(new THREE.Vector3(0,-1,0), angle*Math.PI/180)`,
    THREE's rotation of `v` about the vertical axis (kept abstract because its
    trigonometry is irrational; every theorem holds for an arbitrary such
    function, and concrete instantiations only ever exercise it on paths that
    are consistent with the real rotation, e.g. `angle = 0`, where it is the
    identity, or paths on which the ray result does not depend on the origin).
* The component's parent transform is modelled as a pure translation `parentT`,
  so `getWorldPosition p = parentT + p` and `parent.worldToLocal v = v - parentT`.
* The embedding instantiates `data.xzOrigin` at its default (empty selector, so
  `this.xzOrigin = this.el` and the three `if (this.data.xzOrigin)` adjustments
  in the source do not fire).
* `yVel` and `firstTry` are declared in the IIFE that builds `tick`
  (`tick: (function () { ... let yVel = 0; let firstTry = true; return function tick(...)`),
  which runs once when the component class is registered; that record
  (`SharedState`) is therefore shared by every instance of the component, while
  `this.lastPosition`, `this.objects`, `this.excludes` and the entity position
  live on the instance (`InstState`).
* `tick` additionally returns the number of raycasts it performed, so that
  "returns immediately without casting any ray" is a statement of the model.
-/

namespace Navmesh

/-- A world-space vector (`THREE.Vector3`), with exact rationals for floats. -/
structure Vec3 where
  x : ℚ
  y : ℚ
  z : ℚ
deriving DecidableEq

/-- The zero vector. -/
def Vec3.zero : Vec3 := ⟨0, 0, 0⟩

/-- Componentwise addition (`Vector3.add` / `addVectors`). -/
def Vec3.add (a b : Vec3) : Vec3 := ⟨a.x + b.x, a.y + b.y, a.z + b.z⟩

/-- Componentwise subtraction (`Vector3.sub` / `subVectors`). -/
def Vec3.sub (a b : Vec3) : Vec3 := ⟨a.x - b.x, a.y - b.y, a.z - b.z⟩

/-- Scalar multiplication (`Vector3.multiplyScalar`). -/
def Vec3.smul (k : ℚ) (a : Vec3) : Vec3 := ⟨k * a.x, k * a.y, k * a.z⟩

/-- Squared distance between two points; `a.distanceTo(b) ≤ c` (for `c ≥ 0`) is
embedded as `distSq a b ≤ c * c`. -/
def Vec3.distSq (a b : Vec3) : ℚ :=
  (a.x - b.x) * (a.x - b.x) + (a.y - b.y) * (a.y - b.y) + (a.z - b.z) * (a.z - b.z)

/-- One raycast intersection (`results[i]`): the owning entity handle
(`result.object.el`) and the world-space hit point (`result.point`).  The
`distance` field of the source is unused by the component (the list order,
nearest first, carries it). -/
structure Hit where
  el : ℕ
  point : Vec3
deriving DecidableEq

/-- The component's schema data (`this.data`), at the default `xzOrigin`.
Selector fields keep their raw string form; the empty string is JS-falsy. -/
structure NavmeshData where
  enabled : Bool
  navmesh : String
  fall : ℚ
  height : ℚ
  exclude : String
deriving DecidableEq

/-- Per-instance state: the entity's local position (`this.el.object3D.position`)
and the fields `update`/`tick` store on `this`. -/
structure InstState where
  position : Vec3
  lastPosition : Option Vec3
  objects : List ℕ
  excludes : List ℕ
deriving DecidableEq

/-- State captured by the IIFE closure around `tick`
(`let yVel = 0; let firstTry = true`).  The IIFE runs once, when
`AFRAME.registerComponent` evaluates the component definition, so a single such
record is shared by every instance of the component. -/
structure SharedState where
  yVel : ℚ
  firstTry : Bool
deriving DecidableEq

/-- Gravity acceleration, `const gravity = -1`. -/
def gravity : ℚ := -1

/-- Terminal velocity, `const maxYVelocity = 0.5`. -/
def maxYVelocity : ℚ := 1 / 2

/-- The scanning pattern `[angle in degrees, distance multiplier]`, in source
order. -/
def scanPattern : List (ℚ × ℚ) :=
  [(0, 1), (0, 1/2), (30, 2/5), (-30, 2/5), (60, 1/5), (-60, 1/5),
   (80, 3/50), (-80, 3/50)]

/-- Because `Array.from(document.querySelectorAll(sel))` always yields an array object,
never `null`, so the source's test `els === null` is identically false whatever
the selector matched; the embedding keeps the comparison as the constant it is. -/
def elsIsNull (_els : List ℕ) : Bool := false

/-- The `update` hook, lines 124-135 of the source: resets `lastPosition` to
null and recomputes `excludes` and `objects` from the selectors.  Returns the
new instance state together with whether the `console.warn` branch ran (it
cannot: its guard `els === null` is dead).  A-Frame invokes this hook every
time a schema property is set, including `enabled` (the source's own Example 6
toggles `enabled` via `setAttribute` at runtime). -/
def updateState (doc : String → List ℕ) (data : NavmeshData) (st : InstState) :
    InstState × Bool :=
  let excludes := if data.exclude = "" then [] else doc data.exclude
  let els := doc data.navmesh
  let warned := elsIsNull els
  let objects := if elsIsNull els then [] else els ++ excludes
  ({ st with lastPosition := none, excludes := excludes, objects := objects },
   warned)

/-- The ray origin for one scan candidate `(angle, dist)` (lines 197-205):
deflect the displacement `nextPosition - lastPos` by `angle` about the vertical
axis, scale it by `dist`, translate back to `lastPos`, then raise by
`maxYVelocity` and lower by the agent height. -/
def scanOrigin (rotY : ℚ → Vec3 → Vec3) (data : NavmeshData)
    (nextPosition lastPos : Vec3) (angle dist : ℚ) : Vec3 :=
  let t0 := Vec3.sub nextPosition lastPos
  let t1 := rotY angle t0
  let t2 := Vec3.smul dist t1
  let t3 := Vec3.add t2 lastPos
  { t3 with y := t3.y + maxYVelocity - data.height }

/-- The ray length `raycaster.far` (line 209): `fall + maxYVelocity` when `fall > 0`, else
`Infinity` (encoded `none`). -/
def rayFar (data : NavmeshData) : Option ℚ :=
  if data.fall > 0 then some (data.fall + maxYVelocity) else none

/-- The gravity/velocity integrator applied to an accepted hit
(lines 228-238): with `hitY` the raw hit point raised by the agent height, if
`nextY - (hitY - yVel*2) > 0.01` the agent is falling — the velocity gains
`max(gravity * delta * 0.001, -maxYVelocity)` and the applied height is
`nextY + yVel` for the new `yVel`; otherwise the velocity resets to 0 and the
applied height is `hitY`.  Returns `(applied height, new yVel)`. -/
def integrate (data : NavmeshData) (nextY yVel delta rawHitY : ℚ) : ℚ × ℚ :=
  let hitY := rawHitY + data.height
  if nextY - (hitY - yVel * 2) > 1/100 then
    let yVel2 := yVel + max (gravity * delta * (1/1000)) (-maxYVelocity)
    (nextY + yVel2, yVel2)
  else
    (hitY, 0)

/-- Evaluation of a single scan candidate (one iteration of `scanPatternLoop`,
lines 196-253): cast the downward ray from the candidate's origin; with no
intersections, or with any intersection owned by an excluded element
(`this.excludes.includes(result.object.el)`), the candidate is abandoned
(`continue scanPatternLoop`, embedded as `none`); otherwise the nearest hit
`results[0]` is accepted and the integrator produces the applied position and
velocity. -/
def evalCandidate (cast : List ℕ → Vec3 → Option ℚ → List Hit)
    (rotY : ℚ → Vec3 → Vec3) (data : NavmeshData) (objects excludes : List ℕ)
    (nextPosition lastPos : Vec3) (yVel delta : ℚ) (c : ℚ × ℚ) :
    Option (Vec3 × ℚ) :=
  match cast objects (scanOrigin rotY data nextPosition lastPos c.1 c.2) (rayFar data) with
  | [] => none
  | r0 :: rs =>
      if (r0 :: rs).any (fun r => excludes.contains r.el) then none
      else
        let p := integrate data nextPosition.y yVel delta r0.point.y
        some ({ x := r0.point.x, y := p.1, z := r0.point.z }, p.2)

/-- The scan loop over a candidate list: candidates are tried in order and the
first accepted one wins (`break`), later candidates never being evaluated.
Also counts the raycasts performed (one per examined candidate). -/
def scanLoop (cast : List ℕ → Vec3 → Option ℚ → List Hit)
    (rotY : ℚ → Vec3 → Vec3) (data : NavmeshData) (objects excludes : List ℕ)
    (nextPosition lastPos : Vec3) (yVel delta : ℚ) :
    List (ℚ × ℚ) → Option (Vec3 × ℚ) × ℕ
  | [] => (none, 0)
  | c :: rest =>
      match evalCandidate cast rotY data objects excludes nextPosition lastPos yVel delta c with
      | some v => (some v, 1)
      | none =>
          let r := scanLoop cast rotY data objects excludes nextPosition lastPos yVel delta rest
          (r.1, r.2 + 1)

/-- The result of one `tick`: the shared closure state, the instance state, and
the number of raycasts performed during the tick. -/
structure TickOut where
  sh : SharedState
  st : InstState
  rays : ℕ
deriving DecidableEq

/-- The commit/rollback tail of `tick` (lines 223-266, after the scan):
an accepted hit is converted to the parent's local space
(`worldToLocal`, here subtraction of the parent translation), the
origin's local position is subtracted and the difference added to the entity
position (which, with `xzOrigin` at its default, lands the entity world
position exactly on the hit); `lastPosition` is updated to the hit and
`firstTry` cleared.  With no accepted hit, when `firstTry` is false the entity
position is overwritten with `lastPosition` converted to local space, and when
`firstTry` is still true nothing is written. -/
def commit (parentT : Vec3) (sh : SharedState) (st : InstState) (lastPos : Vec3)
    (scan : Option (Vec3 × ℚ) × ℕ) : TickOut :=
  match scan with
  | (some (hitPos, yVel2), n) =>
      let tempVec := Vec3.sub hitPos parentT
      let tempVec2 := Vec3.sub tempVec st.position
      ⟨{ yVel := yVel2, firstTry := false },
       { st with position := Vec3.add st.position tempVec2,
                 lastPosition := some hitPos },
       n⟩
  | (none, n) =>
      if sh.firstTry = false then
        ⟨sh, { st with position := Vec3.sub lastPos parentT }, n⟩
      else
        ⟨sh, st, n⟩

/-- The per-frame `tick` (lines 168-267), at the default `xzOrigin`: skip when
disabled; initialise `lastPosition` from the current world position (setting
`firstTry`) when it is null; skip when no navmesh objects resolved; skip when
the world position moved by at most `0.01` from `lastPosition`; otherwise run
the scan over the pattern and commit or roll back. -/
def tick (cast : List ℕ → Vec3 → Option ℚ → List Hit)
    (rotY : ℚ → Vec3 → Vec3) (parentT : Vec3) (data : NavmeshData) (delta : ℚ)
    (sh : SharedState) (st : InstState) : TickOut :=
  if data.enabled = false then ⟨sh, st, 0⟩ else
  let sh1 := if st.lastPosition = none then { sh with firstTry := true } else sh
  let st1 := if st.lastPosition = none then
      { st with lastPosition := some (Vec3.add parentT st.position) } else st
  if st1.objects = [] then ⟨sh1, st1, 0⟩ else
  let nextPosition := Vec3.add parentT st1.position
  let lastPos := st1.lastPosition.getD Vec3.zero
  if Vec3.distSq nextPosition lastPos ≤ 1/10000 then ⟨sh1, st1, 0⟩ else
  commit parentT sh1 st1 lastPos
    (scanLoop cast rotY data st1.objects st1.excludes nextPosition lastPos
      sh1.yVel delta scanPattern)

/-! ## Basic facts about the embedded operations -/

theorem Vec3.add_sub_self (a b : Vec3) : Vec3.add b (Vec3.sub a b) = a := by
  cases a; cases b; simp [Vec3.add, Vec3.sub]

theorem Vec3.distSq_self (a : Vec3) : Vec3.distSq a a = 0 := by
  simp [Vec3.distSq]

/-! ## Branch lemmas for `tick` -/

theorem tick_disabled (cast : List ℕ → Vec3 → Option ℚ → List Hit)
    (rotY : ℚ → Vec3 → Vec3) (parentT : Vec3) (data : NavmeshData) (delta : ℚ)
    (sh : SharedState) (st : InstState) (h : data.enabled = false) :
    tick cast rotY parentT data delta sh st = ⟨sh, st, 0⟩ := by
  simp [tick, h]

theorem tick_init (cast : List ℕ → Vec3 → Option ℚ → List Hit)
    (rotY : ℚ → Vec3 → Vec3) (parentT : Vec3) (data : NavmeshData) (delta : ℚ)
    (sh : SharedState) (st : InstState) (hen : data.enabled = true)
    (hlast : st.lastPosition = none) :
    tick cast rotY parentT data delta sh st =
      ⟨{ sh with firstTry := true },
       { st with lastPosition := some (Vec3.add parentT st.position) }, 0⟩ := by
  simp only [tick, hen, hlast]
  norm_num [Vec3.distSq_self]

theorem tick_still (cast : List ℕ → Vec3 → Option ℚ → List Hit)
    (rotY : ℚ → Vec3 → Vec3) (parentT : Vec3) (data : NavmeshData) (delta : ℚ)
    (sh : SharedState) (st : InstState) (p : Vec3)
    (hlast : st.lastPosition = some p)
    (hdist : Vec3.distSq (Vec3.add parentT st.position) p ≤ 1/10000) :
    tick cast rotY parentT data delta sh st = ⟨sh, st, 0⟩ := by
  by_cases hen : data.enabled = false
  · exact tick_disabled _ _ _ _ _ _ _ hen
  · by_cases hobj : st.objects = []
    · simp [tick, hen, hlast, hobj]
    · simp [tick, hen, hlast, hobj]
      intro h'
      exact absurd hdist (not_le.mpr (by rw [one_div]; exact h'))

theorem tick_scan (cast : List ℕ → Vec3 → Option ℚ → List Hit)
    (rotY : ℚ → Vec3 → Vec3) (parentT : Vec3) (data : NavmeshData) (delta : ℚ)
    (sh : SharedState) (st : InstState) (p : Vec3)
    (hen : data.enabled = true) (hlast : st.lastPosition = some p)
    (hobj : st.objects ≠ [])
    (hdist : ¬ Vec3.distSq (Vec3.add parentT st.position) p ≤ 1/10000) :
    tick cast rotY parentT data delta sh st =
      commit parentT sh st p
        (scanLoop cast rotY data st.objects st.excludes
          (Vec3.add parentT st.position) p sh.yVel delta scanPattern) := by
  simp [tick, hen, hlast, hobj]
  rw [one_div] at hdist
  intro h'
  exact absurd h' hdist

/-! ## Branch lemmas for `commit` -/

theorem commit_none_rollback (parentT : Vec3) (sh : SharedState) (st : InstState)
    (lastPos : Vec3) (n : ℕ) (hft : sh.firstTry = false) :
    commit parentT sh st lastPos (none, n) =
      ⟨sh, { st with position := Vec3.sub lastPos parentT }, n⟩ := by
  simp [commit, hft]

theorem commit_none_firstTry (parentT : Vec3) (sh : SharedState) (st : InstState)
    (lastPos : Vec3) (n : ℕ) (hft : sh.firstTry = true) :
    commit parentT sh st lastPos (none, n) = ⟨sh, st, n⟩ := by
  simp [commit, hft]

theorem commit_some (parentT : Vec3) (sh : SharedState) (st : InstState)
    (lastPos hitPos : Vec3) (yVel2 : ℚ) (n : ℕ) :
    commit parentT sh st lastPos (some (hitPos, yVel2), n) =
      ⟨⟨yVel2, false⟩,
       { st with position := Vec3.sub hitPos parentT,
                 lastPosition := some hitPos }, n⟩ := by
  simp [commit, Vec3.add_sub_self]

theorem tick_noObjects (cast : List ℕ → Vec3 → Option ℚ → List Hit)
    (rotY : ℚ → Vec3 → Vec3) (parentT : Vec3) (data : NavmeshData) (delta : ℚ)
    (sh : SharedState) (st : InstState) (p : Vec3)
    (hen : data.enabled = true) (hlast : st.lastPosition = some p)
    (hobj : st.objects = []) :
    tick cast rotY parentT data delta sh st = ⟨sh, st, 0⟩ := by
  simp [tick, hen, hlast, hobj]

/-! ## Lemmas for candidate evaluation and the scan loop -/

theorem contains_true_iff (l : List ℕ) (a : ℕ) : l.contains a = true ↔ a ∈ l := by
  simp [List.contains]

theorem evalCandidate_of_empty (cast : List ℕ → Vec3 → Option ℚ → List Hit)
    (rotY : ℚ → Vec3 → Vec3) (data : NavmeshData) (objects excludes : List ℕ)
    (nextPosition lastPos : Vec3) (yVel delta : ℚ) (c : ℚ × ℚ)
    (hres : cast objects (scanOrigin rotY data nextPosition lastPos c.1 c.2) (rayFar data) = []) :
    evalCandidate cast rotY data objects excludes nextPosition lastPos yVel delta c = none := by
  unfold evalCandidate
  rw [hres]

theorem evalCandidate_of_res (cast : List ℕ → Vec3 → Option ℚ → List Hit)
    (rotY : ℚ → Vec3 → Vec3) (data : NavmeshData) (objects excludes : List ℕ)
    (nextPosition lastPos : Vec3) (yVel delta : ℚ) (c : ℚ × ℚ)
    (r0 : Hit) (rs : List Hit)
    (hres : cast objects (scanOrigin rotY data nextPosition lastPos c.1 c.2) (rayFar data)
      = r0 :: rs) :
    evalCandidate cast rotY data objects excludes nextPosition lastPos yVel delta c =
      if ((r0 :: rs).any fun r => excludes.contains r.el) = true then none
      else
        some ({ x := r0.point.x,
                y := (integrate data nextPosition.y yVel delta r0.point.y).1,
                z := r0.point.z },
              (integrate data nextPosition.y yVel delta r0.point.y).2) := by
  unfold evalCandidate
  rw [hres]

theorem scanLoop_cons_none (cast : List ℕ → Vec3 → Option ℚ → List Hit)
    (rotY : ℚ → Vec3 → Vec3) (data : NavmeshData) (objects excludes : List ℕ)
    (nextPosition lastPos : Vec3) (yVel delta : ℚ) (c : ℚ × ℚ)
    (rest : List (ℚ × ℚ))
    (h : evalCandidate cast rotY data objects excludes nextPosition lastPos yVel delta c = none) :
    scanLoop cast rotY data objects excludes nextPosition lastPos yVel delta (c :: rest) =
      ((scanLoop cast rotY data objects excludes nextPosition lastPos yVel delta rest).1,
       (scanLoop cast rotY data objects excludes nextPosition lastPos yVel delta rest).2 + 1) := by
  simp [scanLoop, h]

theorem scanLoop_cons_some (cast : List ℕ → Vec3 → Option ℚ → List Hit)
    (rotY : ℚ → Vec3 → Vec3) (data : NavmeshData) (objects excludes : List ℕ)
    (nextPosition lastPos : Vec3) (yVel delta : ℚ) (c : ℚ × ℚ)
    (rest : List (ℚ × ℚ)) (v : Vec3 × ℚ)
    (h : evalCandidate cast rotY data objects excludes nextPosition lastPos yVel delta c = some v) :
    scanLoop cast rotY data objects excludes nextPosition lastPos yVel delta (c :: rest) =
      (some v, 1) := by
  simp [scanLoop, h]

theorem scanLoop_all_none (cast : List ℕ → Vec3 → Option ℚ → List Hit)
    (rotY : ℚ → Vec3 → Vec3) (data : NavmeshData) (objects excludes : List ℕ)
    (nextPosition lastPos : Vec3) (yVel delta : ℚ) (l : List (ℚ × ℚ))
    (h : ∀ c ∈ l, evalCandidate cast rotY data objects excludes nextPosition lastPos yVel delta c = none) :
    scanLoop cast rotY data objects excludes nextPosition lastPos yVel delta l =
      (none, l.length) := by
  induction l with
  | nil => rfl
  | cons c rest ih =>
      rw [scanLoop_cons_none _ _ _ _ _ _ _ _ _ _ _ (h c (List.mem_cons_self c rest)),
        ih (fun c' hc' => h c' (List.mem_cons_of_mem c hc'))]
      simp

theorem scanLoop_first_accept (cast : List ℕ → Vec3 → Option ℚ → List Hit)
    (rotY : ℚ → Vec3 → Vec3) (data : NavmeshData) (objects excludes : List ℕ)
    (nextPosition lastPos : Vec3) (yVel delta : ℚ) (pre : List (ℚ × ℚ))
    (c : ℚ × ℚ) (post : List (ℚ × ℚ)) (v : Vec3 × ℚ)
    (hpre : ∀ c' ∈ pre, evalCandidate cast rotY data objects excludes nextPosition lastPos yVel delta c' = none)
    (hc : evalCandidate cast rotY data objects excludes nextPosition lastPos yVel delta c = some v) :
    (scanLoop cast rotY data objects excludes nextPosition lastPos yVel delta
      (pre ++ c :: post)).1 = some v := by
  induction pre with
  | nil => rw [List.nil_append, scanLoop_cons_some _ _ _ _ _ _ _ _ _ _ _ _ hc]
  | cons c' pre' ih =>
      rw [List.cons_append,
        scanLoop_cons_none _ _ _ _ _ _ _ _ _ _ _ (hpre c' (List.mem_cons_self c' pre'))]
      exact ih (fun c'' hc'' => hpre c'' (List.mem_cons_of_mem c' hc''))

theorem scanLoop_velocity (cast : List ℕ → Vec3 → Option ℚ → List Hit)
    (rotY : ℚ → Vec3 → Vec3) (data : NavmeshData) (objects excludes : List ℕ)
    (nextPosition lastPos : Vec3) (yVel delta : ℚ) (l : List (ℚ × ℚ))
    (hp : Vec3) (v : ℚ)
    (h : (scanLoop cast rotY data objects excludes nextPosition lastPos yVel delta l).1
          = some (hp, v)) :
    v = 0 ∨ v = yVel + max (gravity * delta * (1/1000)) (-maxYVelocity) := by
  induction l with
  | nil => simp [scanLoop] at h
  | cons c rest ih =>
      rcases he : evalCandidate cast rotY data objects excludes nextPosition lastPos yVel delta c with _ | v'
      · rw [scanLoop_cons_none _ _ _ _ _ _ _ _ _ _ _ he] at h
        exact ih h
      · rw [scanLoop_cons_some _ _ _ _ _ _ _ _ _ _ _ _ he] at h
        simp only [Option.some.injEq] at h
        subst h
        rcases hres : cast objects
            (scanOrigin rotY data nextPosition lastPos c.1 c.2) (rayFar data) with _ | ⟨r0, rs⟩
        · rw [evalCandidate_of_empty _ _ _ _ _ _ _ _ _ _ hres] at he
          exact absurd he (by simp)
        · rw [evalCandidate_of_res _ _ _ _ _ _ _ _ _ _ _ _ hres] at he
          by_cases hex : ((r0 :: rs).any fun r => excludes.contains r.el) = true
          · rw [if_pos hex] at he; exact absurd he (by simp)
          · rw [if_neg hex] at he
            simp only [Option.some.injEq] at he
            have h2 : v = (integrate data nextPosition.y yVel delta r0.point.y).2 :=
              (congrArg Prod.snd he).symm
            unfold integrate at h2
            by_cases hfall :
                nextPosition.y - (r0.point.y + data.height - yVel * 2) > 1/100
            · rw [if_pos hfall] at h2; right; exact h2
            · rw [if_neg hfall] at h2; left; exact h2

/-! ## Concrete worlds and configurations used by witnesses and counterexamples

`rotY` instantiations are host-primitive oracles: each concrete run below only
relies on them along paths consistent with a real rotation (the accepted
candidates use angle 0, where `applyAxisAngle` is the identity, or worlds whose
ray answer does not depend on the origin). -/

/-- Identity in the angle argument; agrees with `applyAxisAngle` at angle 0. -/
def rotI : ℚ → Vec3 → Vec3 := fun _ v => v

/-- A rotation oracle that records the deflection angle in the x coordinate. -/
def rotMark : ℚ → Vec3 → Vec3 := fun a d => ⟨a, d.y, d.z⟩

/-- A world with no geometry under any ray. -/
def castNone : List ℕ → Vec3 → Option ℚ → List Hit := fun _ _ _ => []

/-- A world with one walkable plane at height 0 owned by element 1. -/
def castFloor : List ℕ → Vec3 → Option ℚ → List Hit :=
  fun _ o _ => [⟨1, ⟨o.x, 0, o.z⟩⟩]

/-- As `castFloor`, but the plane is intersectable only through object list
`[1]`: two instances with different resolved object sets share this world. -/
def castFloorFor1 : List ℕ → Vec3 → Option ℚ → List Hit :=
  fun objs o _ => if objs = [1] then [⟨1, ⟨o.x, 0, o.z⟩⟩] else []

/-- A world where every downward ray meets only the obstacle element 5. -/
def castObstacle : List ℕ → Vec3 → Option ℚ → List Hit :=
  fun _ o _ => [⟨5, ⟨o.x, -1, o.z⟩⟩]

/-- A world where every downward ray meets the walkable element 1 at height 0
and, further along the ray, the obstacle element 5. -/
def castLayered : List ℕ → Vec3 → Option ℚ → List Hit :=
  fun _ o _ => [⟨1, ⟨o.x, 0, o.z⟩⟩, ⟨5, ⟨o.x, -1, o.z⟩⟩]

/-- A world (paired with `rotMark`) where undeflected rays (origin x = 0) hit
the excluded element 9 while deflected rays hit the walkable element 2. -/
def castOpenDeflected : List ℕ → Vec3 → Option ℚ → List Hit :=
  fun _ o _ => if o.x = 0 then [⟨9, ⟨o.x, -1, o.z⟩⟩] else [⟨2, ⟨o.x, 0, o.z⟩⟩]

/-- Configuration with `fall: 0` (unbounded fall search) and zero height. -/
def dataFall0 : NavmeshData := ⟨true, "nav", 0, 0, ""⟩

/-- Configuration at the schema defaults (`fall: 0.5`, `height: 1.6`). -/
def dataDefault : NavmeshData := ⟨true, "nav", 1/2, 8/5, ""⟩

/-! ## Claim C1 -/

/-- Claim C1: for every frame and every scan candidate, if the candidate's
nearest raycast hit (`results[0]`) lies on an excluded surface, that candidate
is never accepted — its evaluation contributes nothing (so neither position,
nor lastPosition, nor the vertical velocity are updated from it, all of which
tick derives from the scan value) and the scan proceeds to the next candidates
in table order. -/
theorem c1_nearest_hit_excluded_skips_candidate
    (cast : List ℕ → Vec3 → Option ℚ → List Hit) (rotY : ℚ → Vec3 → Vec3)
    (data : NavmeshData) (objects excludes : List ℕ)
    (nextPosition lastPos : Vec3) (yVel delta : ℚ) (c : ℚ × ℚ)
    (rest : List (ℚ × ℚ)) (r0 : Hit) (rs : List Hit)
    (hres : cast objects (scanOrigin rotY data nextPosition lastPos c.1 c.2) (rayFar data)
      = r0 :: rs)
    (hex : r0.el ∈ excludes) :
    evalCandidate cast rotY data objects excludes nextPosition lastPos yVel delta c = none ∧
    scanLoop cast rotY data objects excludes nextPosition lastPos yVel delta (c :: rest) =
      ((scanLoop cast rotY data objects excludes nextPosition lastPos yVel delta rest).1,
       (scanLoop cast rotY data objects excludes nextPosition lastPos yVel delta rest).2 + 1) := by
  have hnone :
      evalCandidate cast rotY data objects excludes nextPosition lastPos yVel delta c = none := by
    rw [evalCandidate_of_res _ _ _ _ _ _ _ _ _ _ _ _ hres, if_pos]
    exact List.any_eq_true.mpr ⟨r0, List.mem_cons_self r0 rs, (contains_true_iff _ _).mpr hex⟩
  exact ⟨hnone, scanLoop_cons_none _ _ _ _ _ _ _ _ _ _ _ hnone⟩

unseal Rat.add Rat.mul Rat.sub Rat.inv in
/-- Witness for C1: a concrete frame whose primary candidate's nearest hit is
the obstacle element 5; the candidate yields nothing and the scan falls through
to the remaining candidate. -/
theorem c1_witness :
    evalCandidate castObstacle rotI dataFall0 [1, 5] [5] ⟨0, 5, 0⟩ ⟨0, 0, 0⟩ 0 16 (0, 1)
      = none ∧
    scanLoop castObstacle rotI dataFall0 [1, 5] [5] ⟨0, 5, 0⟩ ⟨0, 0, 0⟩ 0 16
        ((0, 1) :: [((0 : ℚ), (1/2 : ℚ))]) =
      ((scanLoop castObstacle rotI dataFall0 [1, 5] [5] ⟨0, 5, 0⟩ ⟨0, 0, 0⟩ 0 16
          [((0 : ℚ), (1/2 : ℚ))]).1,
       (scanLoop castObstacle rotI dataFall0 [1, 5] [5] ⟨0, 5, 0⟩ ⟨0, 0, 0⟩ 0 16
          [((0 : ℚ), (1/2 : ℚ))]).2 + 1) :=
  c1_nearest_hit_excluded_skips_candidate castObstacle rotI dataFall0 [1, 5] [5]
    ⟨0, 5, 0⟩ ⟨0, 0, 0⟩ 0 16 (0, 1) [((0 : ℚ), (1/2 : ℚ))] ⟨5, ⟨0, -1, 0⟩⟩ []
    (by decide) (by decide)

/-! ## Claim C10 -/

/-- Claim C10: a scan candidate is rejected whenever any intersection along its
downward ray — at any distance — is with an excluded surface, even if the
nearest hit is on a walkable surface; and a candidate whose entire ordered hit
list contains no excluded surface is accepted (with the integrator applied to
its nearest hit `results[0]`). -/
theorem c10_exclusion_scans_whole_hit_list
    (cast : List ℕ → Vec3 → Option ℚ → List Hit) (rotY : ℚ → Vec3 → Vec3)
    (data : NavmeshData) (objects excludes : List ℕ)
    (nextPosition lastPos : Vec3) (yVel delta : ℚ) (c : ℚ × ℚ)
    (r0 : Hit) (rs : List Hit)
    (hres : cast objects (scanOrigin rotY data nextPosition lastPos c.1 c.2) (rayFar data)
      = r0 :: rs) :
    ((∃ r ∈ r0 :: rs, r.el ∈ excludes) →
      evalCandidate cast rotY data objects excludes nextPosition lastPos yVel delta c = none) ∧
    ((∀ r ∈ r0 :: rs, r.el ∉ excludes) →
      evalCandidate cast rotY data objects excludes nextPosition lastPos yVel delta c =
        some ({ x := r0.point.x,
                y := (integrate data nextPosition.y yVel delta r0.point.y).1,
                z := r0.point.z },
              (integrate data nextPosition.y yVel delta r0.point.y).2)) := by
  constructor
  · rintro ⟨r, hr, hrex⟩
    rw [evalCandidate_of_res _ _ _ _ _ _ _ _ _ _ _ _ hres, if_pos]
    exact List.any_eq_true.mpr ⟨r, hr, (contains_true_iff _ _).mpr hrex⟩
  · intro hall
    rw [evalCandidate_of_res _ _ _ _ _ _ _ _ _ _ _ _ hres, if_neg]
    intro hany
    obtain ⟨r, hr, hrc⟩ := List.any_eq_true.mp hany
    exact hall r hr ((contains_true_iff _ _).mp hrc)

unseal Rat.add Rat.mul Rat.sub Rat.inv in
/-- Witness for C10: a concrete candidate whose nearest hit is the walkable
element 1 but whose deeper intersection along the same ray is the obstacle
element 5 is rejected. -/
theorem c10_witness :
    evalCandidate castLayered rotI dataFall0 [1, 5] [5] ⟨0, 5, 0⟩ ⟨0, 0, 0⟩ 0 16 (0, 1)
      = none :=
  (c10_exclusion_scans_whole_hit_list castLayered rotI dataFall0 [1, 5] [5]
    ⟨0, 5, 0⟩ ⟨0, 0, 0⟩ 0 16 (0, 1) ⟨1, ⟨0, 0, 0⟩⟩ [⟨5, ⟨0, -1, 0⟩⟩] (by decide)).1
    ⟨⟨5, ⟨0, -1, 0⟩⟩, by decide, by decide⟩

/-! ## Claim C4 -/

/-- Claim C4: on an accepted hit whose raised point `H` and intended vertical
position `Y1` satisfy the falling test `Y1 - (H.y - 2*verticalVelocity) > 0.01`,
the new vertical velocity is the old one plus
`max(gravity * delta * 0.001, -terminalVelocity)` (`gravity = -1`,
`terminalVelocity = maxYVelocity = 0.5`), and the applied height is
`Y1 + verticalVelocity'` rather than `H.y`. -/
theorem c4_falling_branch_formula
    (cast : List ℕ → Vec3 → Option ℚ → List Hit) (rotY : ℚ → Vec3 → Vec3)
    (data : NavmeshData) (objects excludes : List ℕ)
    (nextPosition lastPos : Vec3) (yVel delta : ℚ) (c : ℚ × ℚ)
    (rest : List (ℚ × ℚ)) (r0 : Hit) (rs : List Hit)
    (hres : cast objects (scanOrigin rotY data nextPosition lastPos c.1 c.2) (rayFar data)
      = r0 :: rs)
    (hnoex : ((r0 :: rs).any fun r => excludes.contains r.el) = false)
    (hfall : nextPosition.y - (r0.point.y + data.height - yVel * 2) > 1/100) :
    scanLoop cast rotY data objects excludes nextPosition lastPos yVel delta (c :: rest) =
      (some ({ x := r0.point.x,
               y := nextPosition.y + (yVel + max (gravity * delta * (1/1000)) (-maxYVelocity)),
               z := r0.point.z },
             yVel + max (gravity * delta * (1/1000)) (-maxYVelocity)), 1) := by
  have he : evalCandidate cast rotY data objects excludes nextPosition lastPos yVel delta c =
      some ({ x := r0.point.x,
              y := nextPosition.y + (yVel + max (gravity * delta * (1/1000)) (-maxYVelocity)),
              z := r0.point.z },
            yVel + max (gravity * delta * (1/1000)) (-maxYVelocity)) := by
    rw [evalCandidate_of_res _ _ _ _ _ _ _ _ _ _ _ _ hres, if_neg (by rw [hnoex]; simp)]
    unfold integrate
    rw [if_pos hfall]
  exact scanLoop_cons_some _ _ _ _ _ _ _ _ _ _ _ _ he

unseal Rat.add Rat.mul Rat.sub Rat.inv in
/-- Witness for C4, the spec's fall-smoothing scenario: intended Y = 5.0,
ground hit with `hit.y + height = 0.0`, velocity 0, delta = 16 ms; the applied
Y on that frame is `5.0 - 0.016 = 4.984`, not a snap to 0. -/
theorem c4_witness :
    scanLoop castFloor rotI dataFall0 [1] [] ⟨0, 5, 0⟩ ⟨0, 0, 0⟩ 0 16
        ((0, 1) :: []) =
      (some (⟨0, 623/125, 0⟩, -2/125), 1) := by
  rw [c4_falling_branch_formula castFloor rotI dataFall0 [1] [] ⟨0, 5, 0⟩ ⟨0, 0, 0⟩
    0 16 (0, 1) [] ⟨1, ⟨0, 0, 0⟩⟩ [] (by decide) (by decide) (by decide)]
  decide

/-! ## Claim C6 -/

/-- Claim C6: the 8 scan candidates are exactly the fixed table
(0°,1), (0°,0.5), (30°,0.4), (-30°,0.4), (60°,0.2), (-60°,0.2), (80°,0.06),
(-80°,0.06) in that order, and the first candidate with a valid (non-excluded)
hit is the one committed: whenever every earlier candidate is rejected and a
candidate is accepted, the scan's value is that candidate's, whatever the later
(wider-angle) candidates would produce. -/
theorem c6_table_order_first_valid_wins :
    scanPattern = [((0 : ℚ), (1 : ℚ)), (0, 1/2), (30, 2/5), (-30, 2/5), (60, 1/5),
      (-60, 1/5), (80, 3/50), (-80, 3/50)] ∧
    ∀ (cast : List ℕ → Vec3 → Option ℚ → List Hit) (rotY : ℚ → Vec3 → Vec3)
      (data : NavmeshData) (objects excludes : List ℕ)
      (nextPosition lastPos : Vec3) (yVel delta : ℚ)
      (pre : List (ℚ × ℚ)) (c : ℚ × ℚ) (post : List (ℚ × ℚ)) (v : Vec3 × ℚ),
      (∀ c' ∈ pre,
        evalCandidate cast rotY data objects excludes nextPosition lastPos yVel delta c' = none) →
      evalCandidate cast rotY data objects excludes nextPosition lastPos yVel delta c = some v →
      (scanLoop cast rotY data objects excludes nextPosition lastPos yVel delta
        (pre ++ c :: post)).1 = some v :=
  ⟨rfl, fun cast rotY data objects excludes nextPosition lastPos yVel delta
      pre c post v hpre hc =>
    scanLoop_first_accept cast rotY data objects excludes nextPosition lastPos
      yVel delta pre c post v hpre hc⟩

unseal Rat.add Rat.mul Rat.sub Rat.inv in
/-- Witness for C6: a world where both 0° candidates strike excluded geometry
while every deflected candidate is open; the scan over the full pattern commits
the (30°, 0.4) candidate (its ray marked by x = 30·0.4 = 12), not the 60°/80°
ones. -/
theorem c6_witness :
    (scanLoop castOpenDeflected rotMark dataFall0 [2, 9] [9] ⟨0, 1, 0⟩ ⟨0, 0, 0⟩ 0 16
      scanPattern).1 = some (⟨12, 123/125, 0⟩, -2/125) := by
  have h := c6_table_order_first_valid_wins.2 castOpenDeflected rotMark dataFall0
    [2, 9] [9] ⟨0, 1, 0⟩ ⟨0, 0, 0⟩ 0 16 [((0 : ℚ), (1 : ℚ)), (0, 1/2)] (30, 2/5)
    [((-30 : ℚ), (2/5 : ℚ)), (60, 1/5), (-60, 1/5), (80, 3/50), (-80, 3/50)]
    (⟨12, 123/125, 0⟩, -2/125) (by decide) (by decide)
  exact h

/-! ## Claim C2 -/

/-- Claim C2: on a tick that reaches the scan and in which all candidates fail
to produce an accepted hit, if some resolution has ever happened (the
first-try flag is cleared) the agent's position is set to the pre-tick
lastPosition converted to local space, with lastPosition itself and the
velocity untouched; if no resolution has ever succeeded (first-try still set)
the state is left entirely untouched at its intended value. -/
theorem c2_rollback_and_prelanding_leniency
    (cast : List ℕ → Vec3 → Option ℚ → List Hit) (rotY : ℚ → Vec3 → Vec3)
    (parentT : Vec3) (data : NavmeshData) (delta : ℚ)
    (sh : SharedState) (st : InstState) (p : Vec3)
    (hen : data.enabled = true) (hlast : st.lastPosition = some p)
    (hobj : st.objects ≠ [])
    (hdist : ¬ Vec3.distSq (Vec3.add parentT st.position) p ≤ 1/10000)
    (hscan : (scanLoop cast rotY data st.objects st.excludes
        (Vec3.add parentT st.position) p sh.yVel delta scanPattern).1 = none) :
    (sh.firstTry = false →
      tick cast rotY parentT data delta sh st =
        ⟨sh, { st with position := Vec3.sub p parentT },
         (scanLoop cast rotY data st.objects st.excludes
           (Vec3.add parentT st.position) p sh.yVel delta scanPattern).2⟩) ∧
    (sh.firstTry = true →
      tick cast rotY parentT data delta sh st =
        ⟨sh, st,
         (scanLoop cast rotY data st.objects st.excludes
           (Vec3.add parentT st.position) p sh.yVel delta scanPattern).2⟩) := by
  have ht := tick_scan cast rotY parentT data delta sh st p hen hlast hobj hdist
  rcases hsl : scanLoop cast rotY data st.objects st.excludes
      (Vec3.add parentT st.position) p sh.yVel delta scanPattern with ⟨res, n⟩
  rw [hsl] at ht hscan
  simp only at hscan
  subst hscan
  constructor
  · intro hft
    rw [ht, commit_none_rollback _ _ _ _ _ hft]
  · intro hft
    rw [ht, commit_none_firstTry _ _ _ _ _ hft]

unseal Rat.add Rat.mul Rat.sub Rat.inv in
/-- Witness for C2: in an empty world every candidate fails; with the
first-try flag cleared the tick rolls the entity back onto the stored
lastPosition (in local space). -/
theorem c2_witness :
    tick castNone rotI ⟨0, 0, 0⟩ dataDefault 16 ⟨0, false⟩
        ⟨⟨0, 0, 0⟩, some ⟨1, 0, 0⟩, [1], []⟩ =
      ⟨⟨0, false⟩,
       { (⟨⟨0, 0, 0⟩, some ⟨1, 0, 0⟩, [1], []⟩ : InstState) with
           position := Vec3.sub ⟨1, 0, 0⟩ ⟨0, 0, 0⟩ },
       (scanLoop castNone rotI dataDefault [1] []
         (Vec3.add ⟨0, 0, 0⟩ (InstState.position ⟨⟨0, 0, 0⟩, some ⟨1, 0, 0⟩, [1], []⟩))
         ⟨1, 0, 0⟩ (SharedState.yVel ⟨0, false⟩) 16 scanPattern).2⟩ :=
  (c2_rollback_and_prelanding_leniency castNone rotI ⟨0, 0, 0⟩ dataDefault 16
    ⟨0, false⟩ ⟨⟨0, 0, 0⟩, some ⟨1, 0, 0⟩, [1], []⟩ ⟨1, 0, 0⟩
    (by decide) (by decide) (by decide) (by decide) (by decide)).1 rfl

/-! ## Claim C9 -/

/-- Claim C9: on any tick where the intended world position is within the 0.01
distance threshold of the stored lastPosition, no raycast is performed and no
state — position, lastPosition, velocity or first-try flag — changes. -/
theorem c9_stillness_is_noop
    (cast : List ℕ → Vec3 → Option ℚ → List Hit) (rotY : ℚ → Vec3 → Vec3)
    (parentT : Vec3) (data : NavmeshData) (delta : ℚ)
    (sh : SharedState) (st : InstState) (p : Vec3)
    (hlast : st.lastPosition = some p)
    (hdist : Vec3.distSq (Vec3.add parentT st.position) p ≤ 1/10000) :
    tick cast rotY parentT data delta sh st = ⟨sh, st, 0⟩ :=
  tick_still cast rotY parentT data delta sh st p hlast hdist

unseal Rat.add Rat.mul Rat.sub Rat.inv in
/-- Witness for C9: a concrete still frame (intended position equal to the
stored lastPosition) leaves state untouched and casts no ray. -/
theorem c9_witness :
    tick castFloor rotI ⟨0, 0, 0⟩ dataDefault 16 ⟨-1/4, false⟩
        ⟨⟨2, 3, 4⟩, some ⟨2, 3, 4⟩, [1], []⟩ =
      ⟨⟨-1/4, false⟩, ⟨⟨2, 3, 4⟩, some ⟨2, 3, 4⟩, [1], []⟩, 0⟩ :=
  c9_stillness_is_noop castFloor rotI ⟨0, 0, 0⟩ dataDefault 16 ⟨-1/4, false⟩
    ⟨⟨2, 3, 4⟩, some ⟨2, 3, 4⟩, [1], []⟩ ⟨2, 3, 4⟩ (by decide) (by decide)

/-! ## Claim C3 -/

/-- Instance state for the C3 counterexample: an agent far above the floor. -/
def stFall : InstState := ⟨⟨0, 100, 0⟩, some ⟨0, 0, 0⟩, [1], []⟩

unseal Rat.add Rat.mul Rat.sub Rat.inv in
/-- Counterexample to C3 as stated: two consecutive falling ticks of 600 ms
(the agent moved horizontally by external controls between them) leave the
vertical velocity at -1, strictly below `-terminalVelocity = -0.5`, while the
agent is still descending.  Only the per-tick increment is clamped at
`-maxYVelocity`; the accumulated `yVel` is not. -/
theorem c3_counterexample :
    (tick castFloor rotI ⟨0, 0, 0⟩ dataFall0 600
        (tick castFloor rotI ⟨0, 0, 0⟩ dataFall0 600 ⟨0, true⟩ stFall).sh
        { (tick castFloor rotI ⟨0, 0, 0⟩ dataFall0 600 ⟨0, true⟩ stFall).st with
            position := ⟨3, 199/2, 0⟩ }).sh.yVel = -1 ∧
    (tick castFloor rotI ⟨0, 0, 0⟩ dataFall0 600
        (tick castFloor rotI ⟨0, 0, 0⟩ dataFall0 600 ⟨0, true⟩ stFall).sh
        { (tick castFloor rotI ⟨0, 0, 0⟩ dataFall0 600 ⟨0, true⟩ stFall).st with
            position := ⟨3, 199/2, 0⟩ }).sh.yVel < -maxYVelocity := by
  constructor
  · decide
  · decide

/-- Claim C3 as amended: the vertical velocity is nonpositive and each tick
either resets it to exactly 0 (the grounded branch), leaves it unchanged (a
guard return or a frame with no accepted hit), or adds the clamped increment
`max(gravity * delta * 0.001, -terminalVelocity)`; hence it decreases by at
most `terminalVelocity = 0.5` per tick, but the accumulated value has no
`-terminalVelocity` floor. -/
theorem c3_amended_velocity_step
    (cast : List ℕ → Vec3 → Option ℚ → List Hit) (rotY : ℚ → Vec3 → Vec3)
    (parentT : Vec3) (data : NavmeshData) (delta : ℚ)
    (sh : SharedState) (st : InstState)
    (hd : 0 ≤ delta) (hy : sh.yVel ≤ 0) :
    (tick cast rotY parentT data delta sh st).sh.yVel ≤ 0 ∧
    sh.yVel - maxYVelocity ≤ (tick cast rotY parentT data delta sh st).sh.yVel ∧
    ((tick cast rotY parentT data delta sh st).sh.yVel = 0 ∨
     (tick cast rotY parentT data delta sh st).sh.yVel = sh.yVel ∨
     (tick cast rotY parentT data delta sh st).sh.yVel =
       sh.yVel + max (gravity * delta * (1/1000)) (-maxYVelocity)) := by
  have hcases :
      (tick cast rotY parentT data delta sh st).sh.yVel = 0 ∨
      (tick cast rotY parentT data delta sh st).sh.yVel = sh.yVel ∨
      (tick cast rotY parentT data delta sh st).sh.yVel =
        sh.yVel + max (gravity * delta * (1/1000)) (-maxYVelocity) := by
    by_cases hen : data.enabled = false
    · rw [tick_disabled _ _ _ _ _ _ _ hen]; right; left; rfl
    · replace hen : data.enabled = true := by
        revert hen; cases data.enabled <;> simp
      rcases hlp : st.lastPosition with _ | p
      · rw [tick_init _ _ _ _ _ _ _ hen hlp]; right; left; rfl
      · by_cases hobj : st.objects = []
        · rw [tick_noObjects _ _ _ _ _ _ _ _ hen hlp hobj]; right; left; rfl
        · by_cases hdist : Vec3.distSq (Vec3.add parentT st.position) p ≤ 1/10000
          · rw [tick_still _ _ _ _ _ _ _ _ hlp hdist]; right; left; rfl
          · rw [tick_scan _ _ _ _ _ _ _ _ hen hlp hobj hdist]
            rcases hsl : scanLoop cast rotY data st.objects st.excludes
                (Vec3.add parentT st.position) p sh.yVel delta scanPattern with ⟨res, n⟩
            rcases res with _ | ⟨hp, v⟩
            · rcases hft : sh.firstTry with _ | _
              · rw [commit_none_rollback _ _ _ _ _ hft]; right; left; rfl
              · rw [commit_none_firstTry _ _ _ _ _ hft]; right; left; rfl
            · rw [commit_some]
              have hv := scanLoop_velocity cast rotY data st.objects st.excludes
                (Vec3.add parentT st.position) p sh.yVel delta scanPattern hp v
                (by rw [hsl])
              rcases hv with hv | hv
              · left; exact hv
              · right; right; exact hv
  have hinc_le : max (gravity * delta * (1/1000)) (-maxYVelocity) ≤ 0 := by
    apply max_le
    · unfold gravity; nlinarith
    · unfold maxYVelocity; norm_num
  have hinc_ge : -maxYVelocity ≤ max (gravity * delta * (1/1000)) (-maxYVelocity) :=
    le_max_right _ _
  have hmax : (0 : ℚ) < maxYVelocity := by unfold maxYVelocity; norm_num
  refine ⟨?_, ?_, hcases⟩
  · rcases hcases with h | h | h
    · rw [h]
    · rw [h]; exact hy
    · rw [h]; linarith
  · rcases hcases with h | h | h
    · rw [h]; linarith
    · rw [h]; linarith
    · rw [h]; linarith

unseal Rat.add Rat.mul Rat.sub Rat.inv in
/-- Witness for the amended C3: a concrete accepting, falling tick
(delta = 16 ms) whose new velocity obeys the characterization. -/
theorem c3_amended_witness :
    (0 : ℚ) ≤ 16 ∧ (⟨0, true⟩ : SharedState).yVel ≤ 0 ∧
    ((tick castFloor rotI ⟨0, 0, 0⟩ dataFall0 16 ⟨0, true⟩
        ⟨⟨0, 5, 0⟩, some ⟨0, 0, 0⟩, [1], []⟩).sh.yVel ≤ 0 ∧
     (⟨0, true⟩ : SharedState).yVel - maxYVelocity ≤
       (tick castFloor rotI ⟨0, 0, 0⟩ dataFall0 16 ⟨0, true⟩
         ⟨⟨0, 5, 0⟩, some ⟨0, 0, 0⟩, [1], []⟩).sh.yVel ∧
     ((tick castFloor rotI ⟨0, 0, 0⟩ dataFall0 16 ⟨0, true⟩
         ⟨⟨0, 5, 0⟩, some ⟨0, 0, 0⟩, [1], []⟩).sh.yVel = 0 ∨
      (tick castFloor rotI ⟨0, 0, 0⟩ dataFall0 16 ⟨0, true⟩
         ⟨⟨0, 5, 0⟩, some ⟨0, 0, 0⟩, [1], []⟩).sh.yVel = (⟨0, true⟩ : SharedState).yVel ∨
      (tick castFloor rotI ⟨0, 0, 0⟩ dataFall0 16 ⟨0, true⟩
         ⟨⟨0, 5, 0⟩, some ⟨0, 0, 0⟩, [1], []⟩).sh.yVel =
        (⟨0, true⟩ : SharedState).yVel +
          max (gravity * 16 * (1/1000)) (-maxYVelocity))) :=
  ⟨by decide, by decide,
   c3_amended_velocity_step castFloor rotI ⟨0, 0, 0⟩ dataFall0 16 ⟨0, true⟩
     ⟨⟨0, 5, 0⟩, some ⟨0, 0, 0⟩, [1], []⟩ (by decide) (by decide)⟩

/-! ## Claim C7 -/

/-- Instance A for the C7 counterexample: above the floor, about to land. -/
def stA7 : InstState := ⟨⟨0, 100, 0⟩, some ⟨0, 0, 0⟩, [1], []⟩

/-- Instance B for the C7 counterexample: its objects `[2]` see no geometry,
so all of its candidates fail; it has a stored lastPosition of its own. -/
def stB7 : InstState := ⟨⟨5, 5, 5⟩, some ⟨9, 9, 9⟩, [2], []⟩

unseal Rat.add Rat.mul Rat.sub Rat.inv in
/-- Counterexample to C7 as stated: `yVel` and `firstTry` live in the closure
created once at component registration, so they are shared between instances.
Ticking instance A (which lands) changes the vertical velocity and the
first-try flag that instance B reads: B's very next tick rolls back to B's
stored lastPosition, whereas without A's tick it would have left B untouched. -/
theorem c7_counterexample :
    (tick castFloorFor1 rotI ⟨0, 0, 0⟩ dataFall0 16 ⟨0, true⟩ stA7).sh.yVel ≠
      (⟨0, true⟩ : SharedState).yVel ∧
    (tick castFloorFor1 rotI ⟨0, 0, 0⟩ dataFall0 16 ⟨0, true⟩ stA7).sh.firstTry ≠
      (⟨0, true⟩ : SharedState).firstTry ∧
    (tick castFloorFor1 rotI ⟨0, 0, 0⟩ dataFall0 16
        (tick castFloorFor1 rotI ⟨0, 0, 0⟩ dataFall0 16 ⟨0, true⟩ stA7).sh
        stB7).st.position ≠
      (tick castFloorFor1 rotI ⟨0, 0, 0⟩ dataFall0 16 ⟨0, true⟩ stB7).st.position := by
  refine ⟨?_, ?_, ?_⟩
  · decide
  · decide
  · decide

/-- Claim C7 as amended: only the instance fields (`lastPosition`, the resolved
geometry sets, the entity position) are private; `verticalVelocity` and the
first-try flag are one shared closure record.  In general, whenever one
instance's tick accepts a hit, the shared record it returns carries
`firstTry = false` and the accepted velocity, and any other instance ticked
next with a failing scan is forced into rollback — its outcome is changed by
the first instance's tick. -/
theorem c7_amended_shared_closure_influence
    (castA : List ℕ → Vec3 → Option ℚ → List Hit) (rotYA : ℚ → Vec3 → Vec3)
    (parentTA : Vec3) (dataA : NavmeshData) (deltaA : ℚ)
    (shA : SharedState) (stA : InstState) (pA : Vec3)
    (castB : List ℕ → Vec3 → Option ℚ → List Hit) (rotYB : ℚ → Vec3 → Vec3)
    (parentTB : Vec3) (dataB : NavmeshData) (deltaB : ℚ)
    (stB : InstState) (pB : Vec3) (hp : Vec3) (yv : ℚ)
    (henA : dataA.enabled = true) (hlastA : stA.lastPosition = some pA)
    (hobjA : stA.objects ≠ [])
    (hdistA : ¬ Vec3.distSq (Vec3.add parentTA stA.position) pA ≤ 1/10000)
    (hscanA : (scanLoop castA rotYA dataA stA.objects stA.excludes
        (Vec3.add parentTA stA.position) pA shA.yVel deltaA scanPattern).1 = some (hp, yv))
    (henB : dataB.enabled = true) (hlastB : stB.lastPosition = some pB)
    (hobjB : stB.objects ≠ [])
    (hdistB : ¬ Vec3.distSq (Vec3.add parentTB stB.position) pB ≤ 1/10000)
    (hscanB : (scanLoop castB rotYB dataB stB.objects stB.excludes
        (Vec3.add parentTB stB.position) pB yv deltaB scanPattern).1 = none) :
    (tick castA rotYA parentTA dataA deltaA shA stA).sh = ⟨yv, false⟩ ∧
    (tick castB rotYB parentTB dataB deltaB
        (tick castA rotYA parentTA dataA deltaA shA stA).sh stB).st.position =
      Vec3.sub pB parentTB := by
  have htA := tick_scan castA rotYA parentTA dataA deltaA shA stA pA henA hlastA hobjA hdistA
  rcases hslA : scanLoop castA rotYA dataA stA.objects stA.excludes
      (Vec3.add parentTA stA.position) pA shA.yVel deltaA scanPattern with ⟨resA, nA⟩
  rw [hslA] at htA hscanA
  simp only at hscanA
  subst hscanA
  rw [commit_some] at htA
  have hshA : (tick castA rotYA parentTA dataA deltaA shA stA).sh = ⟨yv, false⟩ := by
    rw [htA]
  refine ⟨hshA, ?_⟩
  rw [hshA]
  have htB := tick_scan castB rotYB parentTB dataB deltaB ⟨yv, false⟩ stB pB
    henB hlastB hobjB hdistB
  rcases hslB : scanLoop castB rotYB dataB stB.objects stB.excludes
      (Vec3.add parentTB stB.position) pB yv deltaB scanPattern with ⟨resB, nB⟩
  rw [hslB] at htB hscanB
  simp only at hscanB
  subst hscanB
  rw [commit_none_rollback _ _ _ _ _ rfl] at htB
  rw [htB]

unseal Rat.add Rat.mul Rat.sub Rat.inv in
/-- Witness for the amended C7: concretely, instance A lands (velocity
-16/1000, first-try cleared in the shared record) and instance B, ticked next
in a part of the world where its candidates all fail, is rolled back onto its
own stored lastPosition. -/
theorem c7_amended_witness :
    (tick castFloorFor1 rotI ⟨0, 0, 0⟩ dataFall0 16 ⟨0, true⟩ stA7).sh =
      ⟨-2/125, false⟩ ∧
    (tick castFloorFor1 rotI ⟨0, 0, 0⟩ dataFall0 16
        (tick castFloorFor1 rotI ⟨0, 0, 0⟩ dataFall0 16 ⟨0, true⟩ stA7).sh
        stB7).st.position = Vec3.sub ⟨9, 9, 9⟩ ⟨0, 0, 0⟩ :=
  c7_amended_shared_closure_influence castFloorFor1 rotI ⟨0, 0, 0⟩ dataFall0 16
    ⟨0, true⟩ stA7 ⟨0, 0, 0⟩ castFloorFor1 rotI ⟨0, 0, 0⟩ dataFall0 16 stB7
    ⟨9, 9, 9⟩ ⟨0, 12498/125, 0⟩ (-2/125)
    (by decide) (by decide) (by decide) (by decide) (by decide)
    (by decide) (by decide) (by decide) (by decide) (by decide)

/-! ## Claim C8 -/

/-- A document in which the walkable selector matches element 1 and the exclude
selector matches nothing. -/
def docNav : String → List ℕ := fun s => if s = "nav" then [1] else []

/-- A configured instance with stored history for the C8 counterexample. -/
def st8 : InstState := ⟨⟨1, 2, 3⟩, some ⟨7, 8, 9⟩, [1], []⟩

/-- Configuration `dataDefault` with `enabled` set false; as the source's Example 6 shows,
`enabled` is toggled via `setAttribute`, which makes the host rerun the
component's `update` hook. -/
def dataOff : NavmeshData := ⟨false, "nav", 1/2, 8/5, ""⟩

unseal Rat.add Rat.mul Rat.sub Rat.inv in
/-- Counterexample to C8 as stated: setting `enabled=false` is a schema-data
change, so it reruns `update`, which nulls the stored lastPosition; after
re-enabling (another `update`), the first tick re-initialises lastPosition from
the agent's current world position — `⟨1,2,3⟩`, not the pre-disable `⟨7,8,9⟩` —
and sets the shared first-try flag back to true.  Only the vertical velocity
survives the round trip.  Hence stored state is not frozen by disabling and
ticking does not resume from the state as it was at disable time. -/
theorem c8_counterexample :
    (updateState docNav dataOff st8).1.lastPosition = none ∧
    (updateState docNav dataOff st8).1.lastPosition ≠ st8.lastPosition ∧
    (tick castNone rotI ⟨0, 0, 0⟩ dataDefault 16 ⟨-1/4, false⟩
        (updateState docNav dataDefault (updateState docNav dataOff st8).1).1).st.lastPosition
      = some ⟨1, 2, 3⟩ ∧
    (tick castNone rotI ⟨0, 0, 0⟩ dataDefault 16 ⟨-1/4, false⟩
        (updateState docNav dataDefault (updateState docNav dataOff st8).1).1).st.lastPosition
      ≠ st8.lastPosition ∧
    (tick castNone rotI ⟨0, 0, 0⟩ dataDefault 16 ⟨-1/4, false⟩
        (updateState docNav dataDefault (updateState docNav dataOff st8).1).1).sh.firstTry
      = true ∧
    (tick castNone rotI ⟨0, 0, 0⟩ dataDefault 16 ⟨-1/4, false⟩
        (updateState docNav dataDefault (updateState docNav dataOff st8).1).1).sh.yVel
      = -1/4 := by
  refine ⟨?_, ?_, ?_, ?_, ?_, ?_⟩ <;> decide

/-- Claim C8 as amended: while `enabled` is false every tick returns
immediately, casting no ray and leaving both the shared and the instance state
exactly unchanged; but the act of setting the property reruns the `update`
hook, which always clears the stored lastPosition (so re-enabling resumes from
a re-initialised position history, not the pre-disable one). -/
theorem c8_amended_disabled_noop_update_clears
    (cast : List ℕ → Vec3 → Option ℚ → List Hit) (rotY : ℚ → Vec3 → Vec3)
    (parentT : Vec3) (data : NavmeshData) (delta : ℚ)
    (sh : SharedState) (st : InstState)
    (doc : String → List ℕ) (data2 : NavmeshData) (st2 : InstState)
    (hen : data.enabled = false) :
    tick cast rotY parentT data delta sh st = ⟨sh, st, 0⟩ ∧
    (updateState doc data2 st2).1.lastPosition = none :=
  ⟨tick_disabled cast rotY parentT data delta sh st hen, rfl⟩

unseal Rat.add Rat.mul Rat.sub Rat.inv in
/-- Witness for the amended C8: a disabled tick on a concrete state is a
frozen no-op, and a concrete `update` run clears the stored lastPosition. -/
theorem c8_amended_witness :
    tick castNone rotI ⟨0, 0, 0⟩ dataOff 16 ⟨-1/4, false⟩ st8 =
      ⟨⟨-1/4, false⟩, st8, 0⟩ ∧
    (updateState docNav dataDefault st8).1.lastPosition = none :=
  c8_amended_disabled_noop_update_clears castNone rotI ⟨0, 0, 0⟩ dataOff 16
    ⟨-1/4, false⟩ st8 docNav dataDefault st8 (by decide)

/-! ## Claim C5 -/

/-- A document in which the walkable selector matches nothing and the exclude
selector matches the obstacle element 5. -/
def docC5 : String → List ℕ := fun s => if s = "obs" then [5] else []

/-- Configuration whose walkable selector matches zero surfaces while the
exclude selector matches element 5. -/
def dataC5 : NavmeshData := ⟨true, "nav", 1/2, 8/5, "obs"⟩

/-- A fresh instance before (re)configuration. -/
def st0C5 : InstState := ⟨⟨0, 0, 0⟩, none, [], []⟩

/-- The instance state produced by reconfiguring with `docC5`/`dataC5`. -/
def c5st1 : InstState := (updateState docC5 dataC5 st0C5).1

/-- The first tick after that reconfiguration (initialises lastPosition, then
returns at the distance guard). -/
def c5out1 : TickOut := tick castObstacle rotI ⟨0, 0, 0⟩ dataC5 16 ⟨0, true⟩ c5st1

/-- The next tick, after external movement logic displaced the entity. -/
def c5out2 : TickOut :=
  tick castObstacle rotI ⟨0, 0, 0⟩ dataC5 16 c5out1.sh
    { c5out1.st with position := ⟨3, 0, 0⟩ }

unseal Rat.add Rat.mul Rat.sub Rat.inv in
/-- Claim C5 names a code bug, evaluated here at the failing input: with a
walkable selector matching zero surfaces and an exclude selector matching
element 5, `update` does not warn (its `els === null` guard is dead, since
`Array.from` never yields null) and resolves `objects = [] ++ excludes = [5]`,
which is non-empty; the component is then not a no-op: the first enabled tick
already mutates state (it initialises lastPosition), and a later moving tick
casts all 8 rays against the obstacle-only geometry instead of returning
immediately. -/
theorem c5_walkable_empty_not_noop :
    (updateState docC5 dataC5 st0C5).2 = false ∧
    c5st1.objects = [5] ∧
    c5out1.st.lastPosition = some ⟨0, 0, 0⟩ ∧
    c5out2.rays = 8 := by
  refine ⟨?_, ?_, ?_, ?_⟩ <;> decide

end Navmesh
